import Mathlib

/-!
Shallow embedding of `src/app.py` (WebAuthn / Touch ID authentication server):
the in-memory challenge store, the sqlite-backed credential store, and the four
ceremony endpoints `register_start`, `register_finish`, `login_start`,
`login_finish`.  Byte strings and their url-safe base64 transport encoding are
both represented by `String`; the encode/decode plumbing is the identity on
this representation.  The external `webauthn` verification library is modelled
as an explicit function parameter of the finish endpoints; a concrete instance
following the spec contract for the verification gateway is given below.
-/

namespace TouchId

/-- `HTTPException(status_code, detail)`. -/
structure HErr where
  code : Nat
  msg : String
deriving Repr, DecidableEq

/-- A row of the `users` table: `id TEXT PRIMARY KEY, username TEXT UNIQUE NOT NULL, created_at REAL NOT NULL`. -/
structure UserRow where
  id : String
  username : String
  created_at : Nat
deriving Repr, DecidableEq

/-- A row of the `credentials` table. -/
structure CredRow where
  credential_id : String
  user_id : String
  public_key : String
  sign_count : Nat
  created_at : Nat
deriving Repr, DecidableEq

/-- The persistent database: the two tables, rows in insertion order
(sqlite returns them in that order for the unordered SELECTs the app issues). -/
structure Store where
  users : List UserRow
  creds : List CredRow
deriving Repr, DecidableEq

/-- The in-memory challenge store `challenges: dict[str, bytes]`, modelled as an
association list with at most one binding per key (insertion replaces). -/
abbrev Cache := List (String × String)

/-- Dictionary lookup `challenges.get(k)`. -/
def Cache.get : Cache → String → Option String
  | [], _ => none
  | e :: t, k => if e.1 = k then some e.2 else Cache.get t k

/-- Remove every binding of a key. -/
def Cache.erase : Cache → String → Cache
  | [], _ => []
  | e :: t, k => if e.1 = k then Cache.erase t k else e :: Cache.erase t k

/-- Dictionary assignment `challenges[k] = v`. -/
def Cache.put (c : Cache) (k v : String) : Cache :=
  (k, v) :: c.erase k

/-- `challenges.pop(k, None)`: read and delete in one step. -/
def Cache.pop (c : Cache) (k : String) : Option String × Cache :=
  (c.get k, c.erase k)

/-- The cache key `f"{session_id}_user_id"`. -/
def userIdKey (session_id : String) : String := session_id ++ "_user_id"

/-- The cache key `f"{session_id}_username"`. -/
def usernameKey (session_id : String) : String := session_id ++ "_username"

/-- `str.strip()`: drop whitespace from both ends (modelled on the character
list underlying the string). -/
def pyStrip (s : String) : String :=
  ⟨((s.data.dropWhile Char.isWhitespace).reverse.dropWhile Char.isWhitespace).reverse⟩

/-- `str.lower()` (ASCII case folding, which covers the usernames modelled
here). -/
def pyLower (s : String) : String := ⟨s.data.map Char.toLower⟩

/-- `body.username.strip().lower()`. -/
def normalize (s : String) : String := pyLower (pyStrip s)

/-- `raw_id_b64 + "=" * (-len(raw_id_b64) % 4)`. -/
def padB64 (s : String) : String :=
  s ++ String.mk (List.replicate ((4 - s.length % 4) % 4) (Char.ofNat 61))

/-- `SELECT id FROM users WHERE username = ?` + `fetchone()`. -/
def Store.findUserByUsername (s : Store) (username : String) : Option UserRow :=
  s.users.find? (fun u => u.username == username)

/-- `SELECT credential_id FROM credentials WHERE user_id = ?` + `fetchall()`,
projected to the credential ids (used for the login allow-list). -/
def Store.listCredentialIds (s : Store) (uid : String) : List String :=
  (s.creds.filter (fun c => c.user_id == uid)).map (fun c => c.credential_id)

/-- `SELECT credential_id, public_key, sign_count FROM credentials WHERE user_id = ?`
+ `fetchone()`: the first stored credential row of the user, whatever the
client-signed response identifies. -/
def Store.getCredentialForLogin (s : Store) (uid : String) : Option CredRow :=
  s.creds.find? (fun c => c.user_id == uid)

/-- `UPDATE credentials SET sign_count = ? WHERE credential_id = ?`. -/
def Store.updateSignCount (s : Store) (cid : String) (n : Nat) : Store :=
  { s with creds := s.creds.map (fun c =>
      if c.credential_id = cid then { c with sign_count := n } else c) }

/-- The two INSERTs of `register_finish` followed by a single `commit()`.
An exception from either INSERT (uniqueness of `users.id`, `users.username`
or `credentials.credential_id`) aborts before the commit, and closing the
connection without a commit rolls back, so the pair is all-or-nothing. -/
def Store.insertUserAndCredential (s : Store) (u : UserRow) (c : CredRow) :
    Except String Store :=
  if s.users.any (fun x => x.id == u.id) then
    .error "UNIQUE constraint failed: users.id"
  else if s.users.any (fun x => x.username == u.username) then
    .error "UNIQUE constraint failed: users.username"
  else if s.creds.any (fun x => x.credential_id == c.credential_id) then
    .error "UNIQUE constraint failed: credentials.credential_id"
  else
    .ok { users := s.users ++ [u], creds := s.creds ++ [c] }

/-- The fields of the client `credential: dict` that the server reads
(`rawId` / `id`), together with an abstract rendering of its cryptographic
content as consumed by the verification gateway: whether the attestation or
assertion signature and the rp-id/origin checks are good (`valid`), which
challenge the response signs (`signedChallenge`), which key signed an
assertion (`usedPublicKey`), the authenticator-reported signature counter
(`reportedSignCount`), and for attestations the new credential id and public
key the gateway extracts. -/
structure ClientCredential where
  rawId : Option String
  id : String
  valid : Bool
  signedChallenge : String
  usedPublicKey : String
  reportedSignCount : Nat
  newCredentialId : String
  newPublicKey : String
deriving Repr, DecidableEq

structure RegisterStartRequest where
  username : String
deriving Repr, DecidableEq

structure RegisterFinishRequest where
  username : String
  credential : ClientCredential
deriving Repr, DecidableEq

structure LoginStartRequest where
  username : String
deriving Repr, DecidableEq

structure LoginFinishRequest where
  username : String
  credential : ClientCredential
deriving Repr, DecidableEq

/-- The part of `webauthn`'s `VerifiedRegistration` the app reads. -/
structure RegVerifiedData where
  credential_id : String
  credential_public_key : String
  sign_count : Nat
deriving Repr, DecidableEq

/-- The part of `webauthn`'s `VerifiedAuthentication` the app reads. -/
structure AuthVerifiedData where
  new_sign_count : Nat
deriving Repr, DecidableEq

/-- Type of the registration side of the verification gateway: the raw client
response and the expected challenge (the rp id and origin are the fixed
constants `RP_ID` / `ORIGIN` and are folded into `valid`). -/
abbrev RegVerify := ClientCredential → String → Except String RegVerifiedData

/-- Type of the authentication side of the verification gateway:
response, expected challenge, stored public key, stored sign count. -/
abbrev AuthVerify := ClientCredential → String → String → Nat → Except String AuthVerifiedData

/-- Modelled from the spec: the Verification Gateway entry point
`verify_registration` (the implementation, `webauthn.verify_registration_response`,
is an external library, not part of this repository).  It returns a typed
failure on a bad response or a challenge mismatch, and otherwise the
credential id, public key and initial sign count carried by the attestation. -/
def verify_registration_response (credential : ClientCredential)
    (expected_challenge : String) : Except String RegVerifiedData :=
  if credential.valid = false then .error "InvalidSignature"
  else if credential.signedChallenge ≠ expected_challenge then .error "ChallengeMismatch"
  else .ok ⟨credential.newCredentialId, credential.newPublicKey, credential.reportedSignCount⟩

/-- Modelled from the spec: the Verification Gateway entry point
`verify_authentication` (the implementation,
`webauthn.verify_authentication_response`, is an external library, not part of
this repository).  Per the contract it must reject when the reported counter
is not strictly greater than the known counter, unless both are zero; on
success it returns the new sign count reported by the authenticator. -/
def verify_authentication_response (credential : ClientCredential)
    (expected_challenge : String) (credential_public_key : String)
    (credential_current_sign_count : Nat) : Except String AuthVerifiedData :=
  if credential.valid = false then .error "InvalidSignature"
  else if credential.usedPublicKey ≠ credential_public_key then .error "InvalidSignature"
  else if credential.signedChallenge ≠ expected_challenge then .error "ChallengeMismatch"
  else if (credential.reportedSignCount ≠ 0 ∨ credential_current_sign_count ≠ 0) ∧
      credential.reportedSignCount ≤ credential_current_sign_count then
    .error "SignCountError"
  else .ok ⟨credential.reportedSignCount⟩

/-- The outputs of `register_start` the claims are about: the generated
challenge and the pending identifiers it caches. -/
structure RegStartOk where
  challenge : String
  user_id : String
  username : String
deriving Repr, DecidableEq

/-- The outputs of `login_start` the claims are about. -/
structure LoginStartOk where
  challenge : String
  allow_credentials : List String
deriving Repr, DecidableEq

/-- `{"status": "ok", "username": username}`. -/
structure FinishOk where
  status : String
  username : String
deriving Repr, DecidableEq

/-- `POST /api/register/start`.  The freshly generated random user id and
challenge enter as parameters (`secrets.token_hex(16)`,
`generate_registration_options(...).challenge`). -/
def register_start (body : RegisterStartRequest) (session_id : String)
    (cache : Cache) (store : Store) (fresh_user_id challenge : String) :
    Except HErr RegStartOk × Cache :=
  let username := normalize body.username
  if username = "" then
    (.error ⟨400, "Username required"⟩, cache)
  else
    match store.findUserByUsername username with
    | some _ => (.error ⟨409, "Username already registered. Try logging in instead."⟩, cache)
    | none =>
      let cache := cache.put session_id challenge
      let cache := cache.put (userIdKey session_id) fresh_user_id
      let cache := cache.put (usernameKey session_id) username
      (.ok ⟨challenge, fresh_user_id, username⟩, cache)

/-- `POST /api/register/finish`.  The verification gateway enters as a function
parameter; `now` stands for `time.time()`.  The three pops happen before the
guard, which tests only the challenge and the pending user id for truthiness
(`if not challenge or not user_id`).  A missing pending username reaches the
INSERT as SQL NULL and violates `users.username NOT NULL`, an uncaught
exception surfaced as a 500. -/
def register_finish (verify : RegVerify) (body : RegisterFinishRequest)
    (session_id : String) (cache : Cache) (store : Store) (now : Nat) :
    Except HErr FinishOk × Cache × Store :=
  let p1 := cache.pop session_id
  let p2 := p1.2.pop (userIdKey session_id)
  let p3 := p2.2.pop (usernameKey session_id)
  let cache := p3.2
  match p1.1, p2.1 with
  | some challenge, some user_id =>
    if challenge = "" ∨ user_id = "" then
      (.error ⟨400, "No pending registration. Start over."⟩, cache, store)
    else
      match verify body.credential challenge with
      | .error e => (.error ⟨400, "Registration verification failed: " ++ e⟩, cache, store)
      | .ok verification =>
        match p3.1 with
        | none => (.error ⟨500, "NOT NULL constraint failed: users.username"⟩, cache, store)
        | some username =>
          match store.insertUserAndCredential
              ⟨user_id, username, now⟩
              ⟨verification.credential_id, user_id,
               verification.credential_public_key, verification.sign_count, now⟩ with
          | .error e => (.error ⟨500, e⟩, cache, store)
          | .ok store2 => (.ok ⟨"ok", username⟩, cache, store2)
  | _, _ => (.error ⟨400, "No pending registration. Start over."⟩, cache, store)

/-- `POST /api/login/start`.  The generated challenge enters as a parameter. -/
def login_start (body : LoginStartRequest) (session_id : String)
    (cache : Cache) (store : Store) (challenge : String) :
    Except HErr LoginStartOk × Cache :=
  let username := normalize body.username
  match store.findUserByUsername username with
  | none => (.error ⟨404, "User not found. Register first."⟩, cache)
  | some user =>
    let allow := store.listCredentialIds user.id
    let cache := cache.put session_id challenge
    let cache := cache.put (usernameKey session_id) username
    (.ok ⟨challenge, allow⟩, cache)

/-- `POST /api/login/finish`.  Pops the challenge and the bound username, falls
back to the (normalized) request-body username only when no truthy bound value
exists, looks the credential row up by user id alone (`padded`, computed from
the response's rawId/id, is dead), calls the gateway, and on success updates
the sign count of the selected row. -/
def login_finish (verify : AuthVerify) (body : LoginFinishRequest)
    (session_id : String) (cache : Cache) (store : Store) :
    Except HErr FinishOk × Cache × Store :=
  let p1 := cache.pop session_id
  let p2 := p1.2.pop (usernameKey session_id)
  let cache := p2.2
  match p1.1 with
  | none => (.error ⟨400, "No pending login. Start over."⟩, cache, store)
  | some challenge =>
    if challenge = "" then
      (.error ⟨400, "No pending login. Start over."⟩, cache, store)
    else
      let username :=
        match p2.1 with
        | some u => if u = "" then normalize body.username else u
        | none => normalize body.username
      match store.findUserByUsername username with
      | none => (.error ⟨404, "User not found."⟩, cache, store)
      | some user =>
        let raw_id_b64 :=
          match body.credential.rawId with
          | some r => if r = "" then body.credential.id else r
          | none => body.credential.id
        let _padded := padB64 raw_id_b64
        match store.getCredentialForLogin user.id with
        | none => (.error ⟨400, "No credentials found for user."⟩, cache, store)
        | some cred_row =>
          match verify body.credential challenge cred_row.public_key cred_row.sign_count with
          | .error e => (.error ⟨400, "Authentication failed: " ++ e⟩, cache, store)
          | .ok verification =>
            (.ok ⟨"ok", username⟩, cache,
             store.updateSignCount cred_row.credential_id verification.new_sign_count)

/-! ### Cache lemmas -/

theorem Cache.get_erase_self (c : Cache) (k : String) : (c.erase k).get k = none := by
  induction c with
  | nil => rfl
  | cons e t ih =>
    by_cases h : e.1 = k
    · simpa [Cache.erase, h] using ih
    · simpa [Cache.erase, Cache.get, h] using ih

theorem Cache.get_erase_ne (c : Cache) (k k2 : String) (h : k ≠ k2) :
    (c.erase k2).get k = c.get k := by
  induction c with
  | nil => rfl
  | cons e t ih =>
    by_cases he : e.1 = k2
    · have h1 : e.1 ≠ k := by rw [he]; exact fun hk => h hk.symm
      have h2 : k2 ≠ k := fun hk => h hk.symm
      simp [Cache.erase, Cache.get, he, h1, h2, ih]
    · simp only [Cache.erase, if_neg he, Cache.get]
      by_cases hk : e.1 = k
      · simp [hk]
      · simp [hk, ih]

theorem Cache.get_put_self (c : Cache) (k v : String) : (c.put k v).get k = some v := by
  simp [Cache.put, Cache.get]

theorem Cache.get_put_ne (c : Cache) (k k2 v : String) (h : k ≠ k2) :
    (c.put k2 v).get k = c.get k := by
  have : k2 ≠ k := fun hk => h hk.symm
  simp [Cache.put, Cache.get, this, Cache.get_erase_ne c k k2 h]

theorem Cache.get_none_erase (c : Cache) (k k2 : String) (h : c.get k = none) :
    (c.erase k2).get k = none := by
  by_cases hk : k = k2
  · subst hk; exact Cache.get_erase_self c k
  · rw [Cache.get_erase_ne c k k2 hk]; exact h

/-! ### The three cache keys of a session are pairwise distinct -/

theorem ne_userIdKey (sid : String) : sid ≠ userIdKey sid := by
  intro h
  have hl := congrArg String.length h
  simp [userIdKey, String.length_append] at hl
  exact absurd hl (by decide)

theorem ne_usernameKey (sid : String) : sid ≠ usernameKey sid := by
  intro h
  have hl := congrArg String.length h
  simp [usernameKey, String.length_append] at hl
  exact absurd hl (by decide)

theorem userIdKey_ne_usernameKey (sid : String) : userIdKey sid ≠ usernameKey sid := by
  intro h
  have hl := congrArg String.length h
  simp [userIdKey, usernameKey, String.length_append] at hl
  exact absurd hl (by decide)

/-! ### Shape lemmas for the finish endpoints -/

/-- Whatever branch `register_finish` takes, the cache it leaves behind is the
input cache with all three session slots removed (the pops precede the guard). -/
theorem register_finish_cache (v : RegVerify) (b : RegisterFinishRequest)
    (sid : String) (cache : Cache) (store : Store) (now : Nat) :
    (register_finish v b sid cache store now).2.1 =
      (((cache.erase sid).erase (userIdKey sid)).erase (usernameKey sid)) := by
  simp only [register_finish, Cache.pop]
  split
  · split
    · rfl
    · split
      · rfl
      · split
        · rfl
        · split <;> rfl
  · rfl

/-- Whatever branch `login_finish` takes, the cache it leaves behind is the
input cache with the challenge and username slots removed. -/
theorem login_finish_cache (v : AuthVerify) (b : LoginFinishRequest)
    (sid : String) (cache : Cache) (store : Store) :
    (login_finish v b sid cache store).2.1 =
      ((cache.erase sid).erase (usernameKey sid)) := by
  simp only [login_finish, Cache.pop]
  split
  · rfl
  · split
    · rfl
    · split
      · rfl
      · split
        · rfl
        · split <;> rfl

/-- With no challenge stored under the session id, `register_finish` fails with
the no-pending-registration error, independent of the gateway, and leaves the
store untouched. -/
theorem register_finish_no_challenge (v : RegVerify) (b : RegisterFinishRequest)
    (sid : String) (cache : Cache) (store : Store) (now : Nat)
    (h : cache.get sid = none) :
    (register_finish v b sid cache store now).1 =
        .error ⟨400, "No pending registration. Start over."⟩ ∧
      (register_finish v b sid cache store now).2.2 = store := by
  cases hx : (cache.erase sid).get (userIdKey sid) <;>
    simp [register_finish, Cache.pop, h, hx]

/-- With no challenge stored under the session id, `login_finish` fails with
the no-pending-login error, independent of the gateway, and leaves the store
untouched. -/
theorem login_finish_no_challenge (v : AuthVerify) (b : LoginFinishRequest)
    (sid : String) (cache : Cache) (store : Store)
    (h : cache.get sid = none) :
    (login_finish v b sid cache store).1 =
        .error ⟨400, "No pending login. Start over."⟩ ∧
      (login_finish v b sid cache store).2.2 = store := by
  simp [login_finish, Cache.pop, h]

/-- The cache left by `register_finish` has no challenge under the session id. -/
theorem register_finish_cache_get_none (v : RegVerify) (b : RegisterFinishRequest)
    (sid : String) (cache : Cache) (store : Store) (now : Nat) :
    ((register_finish v b sid cache store now).2.1).get sid = none := by
  rw [register_finish_cache]
  rw [Cache.get_erase_ne _ _ _ (ne_usernameKey sid),
    Cache.get_erase_ne _ _ _ (ne_userIdKey sid)]
  exact Cache.get_erase_self cache sid

/-- The cache left by `login_finish` has no challenge under the session id. -/
theorem login_finish_cache_get_none (v : AuthVerify) (b : LoginFinishRequest)
    (sid : String) (cache : Cache) (store : Store) :
    ((login_finish v b sid cache store).2.1).get sid = none := by
  rw [login_finish_cache]
  rw [Cache.get_erase_ne _ _ _ (ne_usernameKey sid)]
  exact Cache.get_erase_self cache sid

/-- Claim C1: a finish call (registration or login) consumes the challenge
stored under its session id, and any repeated finish call on that session —
registration or login, with any signed response and any gateway behaviour —
fails with the 400 no-pending-ceremony error of its endpoint without touching
the store (and hence without reaching verification: the outcome is the same
for every gateway). -/
theorem c1_challenge_not_reusable (sid : String) (cache : Cache) (store : Store)
    (now now2 : Nat) (vr1 vr2 : RegVerify) (br1 br2 : RegisterFinishRequest)
    (va1 va2 : AuthVerify) (bl1 bl2 : LoginFinishRequest) :
    (((register_finish vr2 br2 sid (register_finish vr1 br1 sid cache store now).2.1
          (register_finish vr1 br1 sid cache store now).2.2 now2).1 =
        .error ⟨400, "No pending registration. Start over."⟩ ∧
      (register_finish vr2 br2 sid (register_finish vr1 br1 sid cache store now).2.1
          (register_finish vr1 br1 sid cache store now).2.2 now2).2.2 =
        (register_finish vr1 br1 sid cache store now).2.2) ∧
     ((login_finish va2 bl2 sid (register_finish vr1 br1 sid cache store now).2.1
          (register_finish vr1 br1 sid cache store now).2.2).1 =
        .error ⟨400, "No pending login. Start over."⟩ ∧
      (login_finish va2 bl2 sid (register_finish vr1 br1 sid cache store now).2.1
          (register_finish vr1 br1 sid cache store now).2.2).2.2 =
        (register_finish vr1 br1 sid cache store now).2.2)) ∧
    (((register_finish vr2 br2 sid (login_finish va1 bl1 sid cache store).2.1
          (login_finish va1 bl1 sid cache store).2.2 now2).1 =
        .error ⟨400, "No pending registration. Start over."⟩ ∧
      (register_finish vr2 br2 sid (login_finish va1 bl1 sid cache store).2.1
          (login_finish va1 bl1 sid cache store).2.2 now2).2.2 =
        (login_finish va1 bl1 sid cache store).2.2) ∧
     ((login_finish va2 bl2 sid (login_finish va1 bl1 sid cache store).2.1
          (login_finish va1 bl1 sid cache store).2.2).1 =
        .error ⟨400, "No pending login. Start over."⟩ ∧
      (login_finish va2 bl2 sid (login_finish va1 bl1 sid cache store).2.1
          (login_finish va1 bl1 sid cache store).2.2).2.2 =
        (login_finish va1 bl1 sid cache store).2.2)) := by
  refine ⟨⟨?_, ?_⟩, ?_, ?_⟩
  · exact register_finish_no_challenge _ _ _ _ _ _
      (register_finish_cache_get_none vr1 br1 sid cache store now)
  · exact login_finish_no_challenge _ _ _ _ _
      (register_finish_cache_get_none vr1 br1 sid cache store now)
  · exact register_finish_no_challenge _ _ _ _ _ _
      (login_finish_cache_get_none va1 bl1 sid cache store)
  · exact login_finish_no_challenge _ _ _ _ _
      (login_finish_cache_get_none va1 bl1 sid cache store)

/-- A successful insert of the user/credential pair appends exactly those two
rows. -/
theorem insertUserAndCredential_ok_shape (s : Store) (u : UserRow) (c : CredRow)
    (s2 : Store) (h : s.insertUserAndCredential u c = .ok s2) :
    s2 = ⟨s.users ++ [u], s.creds ++ [c]⟩ := by
  simp only [Store.insertUserAndCredential] at h
  split_ifs at h
  all_goals simp_all

/-- Claim C6: `register_finish` writes the user row and the credential row as
one unit: the store it returns is either unchanged, or the input store with
exactly one new user row and one new credential row appended, the credential
owned by that user.  No reachable outcome has one row without the other. -/
theorem c6_register_finish_atomic (v : RegVerify) (b : RegisterFinishRequest)
    (sid : String) (cache : Cache) (store : Store) (now : Nat) :
    (register_finish v b sid cache store now).2.2 = store ∨
    ∃ u cr, (register_finish v b sid cache store now).2.2 =
        ⟨store.users ++ [u], store.creds ++ [cr]⟩ ∧ cr.user_id = u.id := by
  simp only [register_finish, Cache.pop]
  split
  · split
    · left; rfl
    · split
      · left; rfl
      · split
        · left; rfl
        · split
          · left; rfl
          · next store2 heq =>
              right
              exact ⟨_, _, insertUserAndCredential_ok_shape _ _ _ _ heq, rfl⟩
  · left; rfl

/-- Claim C8: `login_start` for a username that resolves to no registered user
fails with the 404 NotFound error and returns the cache unchanged: no
challenge entry is created for the session. -/
theorem c8_login_start_unknown_user (b : LoginStartRequest) (sid : String)
    (cache : Cache) (store : Store) (challenge : String)
    (h : store.findUserByUsername (normalize b.username) = none) :
    login_start b sid cache store challenge =
      (.error ⟨404, "User not found. Register first."⟩, cache) := by
  simp [login_start, h]

/-- Witness for C8: starting a login for the unregistered username "bob" on an
empty store fails with 404 and leaves the challenge cache empty. -/
theorem c8_login_start_unknown_user_witness :
    (Store.findUserByUsername ⟨[], []⟩ (normalize "bob") = none) ∧
      login_start ⟨"bob"⟩ "s" [] ⟨[], []⟩ "CH" =
        (.error ⟨404, "User not found. Register first."⟩, []) :=
  ⟨rfl, c8_login_start_unknown_user ⟨"bob"⟩ "s" [] ⟨[], []⟩ "CH" rfl⟩

/-- Claim C4: when the session carries a (truthy) bound username from the
start call, `login_finish` ignores the username field of the request body
entirely: two finish requests with the same signed response and different
body usernames have identical outcomes (result, cache and store), for every
gateway. -/
theorem c4_bound_username_wins (v : AuthVerify) (sid : String) (cache : Cache)
    (store : Store) (u : String)
    (h1 : cache.get (usernameKey sid) = some u) (h2 : u ≠ "")
    (u1 u2 : String) (cred : ClientCredential) :
    login_finish v ⟨u1, cred⟩ sid cache store =
      login_finish v ⟨u2, cred⟩ sid cache store := by
  have hren : (cache.erase sid).get (usernameKey sid) = some u := by
    rw [Cache.get_erase_ne _ _ _ fun hh => ne_usernameKey sid hh.symm]
    exact h1
  simp only [login_finish, Cache.pop, hren]
  cases hc : cache.get sid with
  | none => rfl
  | some ch =>
    by_cases hch : ch = ""
    · simp [hch]
    · simp [hch, h2]

/-- Witness for C4: with "alice" bound to session "s", finishing with body
username "mallory" and with body username "alice" give the same outcome. -/
theorem c4_bound_username_wins_witness :
    (Cache.get [("s", "CH"), ("s_username", "alice")] (usernameKey "s") = some "alice") ∧
      ("alice" ≠ "") ∧
      login_finish verify_authentication_response
          ⟨"mallory", ⟨none, "", true, "CH", "K", 1, "", ""⟩⟩ "s"
          [("s", "CH"), ("s_username", "alice")]
          ⟨[⟨"u1", "alice", 0⟩], [⟨"A", "u1", "K", 5, 0⟩]⟩ =
        login_finish verify_authentication_response
          ⟨"alice", ⟨none, "", true, "CH", "K", 1, "", ""⟩⟩ "s"
          [("s", "CH"), ("s_username", "alice")]
          ⟨[⟨"u1", "alice", 0⟩], [⟨"A", "u1", "K", 5, 0⟩]⟩ :=
  ⟨by decide, by decide,
    c4_bound_username_wins verify_authentication_response "s"
      [("s", "CH"), ("s_username", "alice")]
      ⟨[⟨"u1", "alice", 0⟩], [⟨"A", "u1", "K", 5, 0⟩]⟩ "alice"
      (by decide) (by decide) "mallory" "alice"
      ⟨none, "", true, "CH", "K", 1, "", ""⟩⟩

/-- When the session state fully resolves (live challenge, truthy bound
username, known user, existing credential row), `login_finish` reduces to the
gateway call on the first stored credential row of the user. -/
theorem login_finish_resolved (v : AuthVerify) (b : LoginFinishRequest)
    (sid : String) (cache : Cache) (store : Store) (ch u : String)
    (user : UserRow) (cred_row : CredRow)
    (hch : cache.get sid = some ch) (hch0 : ch ≠ "")
    (hun : cache.get (usernameKey sid) = some u) (hun0 : u ≠ "")
    (huser : store.findUserByUsername u = some user)
    (hcred : store.getCredentialForLogin user.id = some cred_row) :
    login_finish v b sid cache store =
      match v b.credential ch cred_row.public_key cred_row.sign_count with
      | .error e => (.error ⟨400, "Authentication failed: " ++ e⟩,
          (cache.erase sid).erase (usernameKey sid), store)
      | .ok verification => (.ok ⟨"ok", u⟩,
          (cache.erase sid).erase (usernameKey sid),
          store.updateSignCount cred_row.credential_id verification.new_sign_count) := by
  have hren : (cache.erase sid).get (usernameKey sid) = some u := by
    rw [Cache.get_erase_ne _ _ _ fun hh => ne_usernameKey sid hh.symm]
    exact hun
  simp [login_finish, Cache.pop, hch, hren, hch0, hun0, huser, hcred]

/-- Claim C2: with a fully resolved login session whose stored credential has
a positive sign count, and the gateway instantiated by the spec contract: a
response whose reported counter is at most the stored value makes the finish
call fail and leaves the store untouched, while an otherwise-valid response
with a strictly greater reported counter succeeds and persists that counter
as the credential's new sign count. -/
theorem c2_sign_count_discipline (sid : String) (cache : Cache) (store : Store)
    (ch u : String) (user : UserRow) (cred_row : CredRow)
    (b1 b2 : LoginFinishRequest)
    (hch : cache.get sid = some ch) (hch0 : ch ≠ "")
    (hun : cache.get (usernameKey sid) = some u) (hun0 : u ≠ "")
    (huser : store.findUserByUsername u = some user)
    (hcred : store.getCredentialForLogin user.id = some cred_row)
    (hpos : 0 < cred_row.sign_count)
    (hlow : b1.credential.reportedSignCount ≤ cred_row.sign_count)
    (hvalid : b2.credential.valid = true)
    (hkey : b2.credential.usedPublicKey = cred_row.public_key)
    (hsch : b2.credential.signedChallenge = ch)
    (hhigh : cred_row.sign_count < b2.credential.reportedSignCount) :
    ((∃ e, (login_finish verify_authentication_response b1 sid cache store).1 =
          .error e) ∧
      (login_finish verify_authentication_response b1 sid cache store).2.2 = store) ∧
    ((login_finish verify_authentication_response b2 sid cache store).1 =
        .ok ⟨"ok", u⟩ ∧
      (login_finish verify_authentication_response b2 sid cache store).2.2 =
        store.updateSignCount cred_row.credential_id
          b2.credential.reportedSignCount) := by
  constructor
  · rw [login_finish_resolved verify_authentication_response b1 sid cache store
      ch u user cred_row hch hch0 hun hun0 huser hcred]
    cases hv : verify_authentication_response b1.credential ch
        cred_row.public_key cred_row.sign_count with
    | error e => exact ⟨⟨⟨400, "Authentication failed: " ++ e⟩, rfl⟩, rfl⟩
    | ok d =>
      exfalso
      simp only [verify_authentication_response] at hv
      split_ifs at hv with hv1 hv2 hv3 hv4
      exact hv4 ⟨Or.inr (Nat.pos_iff_ne_zero.mp hpos), hlow⟩
  · rw [login_finish_resolved verify_authentication_response b2 sid cache store
      ch u user cred_row hch hch0 hun hun0 huser hcred]
    have hnle : ¬(b2.credential.reportedSignCount ≤ cred_row.sign_count) :=
      Nat.not_le.mpr hhigh
    simp [verify_authentication_response, hvalid, hkey, hsch, hnle]

/-- Witness for C2: stored count 5; a response reporting 5 fails and leaves
the store unchanged, a response reporting 9 succeeds and persists 9. -/
theorem c2_sign_count_discipline_witness :
    ((∃ e, (login_finish verify_authentication_response
          ⟨"alice", ⟨none, "", true, "CH", "K", 5, "", ""⟩⟩ "s"
          [("s", "CH"), ("s_username", "alice")]
          ⟨[⟨"u1", "alice", 0⟩], [⟨"A", "u1", "K", 5, 0⟩]⟩).1 = .error e) ∧
      (login_finish verify_authentication_response
          ⟨"alice", ⟨none, "", true, "CH", "K", 5, "", ""⟩⟩ "s"
          [("s", "CH"), ("s_username", "alice")]
          ⟨[⟨"u1", "alice", 0⟩], [⟨"A", "u1", "K", 5, 0⟩]⟩).2.2 =
        ⟨[⟨"u1", "alice", 0⟩], [⟨"A", "u1", "K", 5, 0⟩]⟩) ∧
    ((login_finish verify_authentication_response
          ⟨"alice", ⟨none, "", true, "CH", "K", 9, "", ""⟩⟩ "s"
          [("s", "CH"), ("s_username", "alice")]
          ⟨[⟨"u1", "alice", 0⟩], [⟨"A", "u1", "K", 5, 0⟩]⟩).1 = .ok ⟨"ok", "alice"⟩ ∧
      (login_finish verify_authentication_response
          ⟨"alice", ⟨none, "", true, "CH", "K", 9, "", ""⟩⟩ "s"
          [("s", "CH"), ("s_username", "alice")]
          ⟨[⟨"u1", "alice", 0⟩], [⟨"A", "u1", "K", 5, 0⟩]⟩).2.2 =
        Store.updateSignCount ⟨[⟨"u1", "alice", 0⟩], [⟨"A", "u1", "K", 5, 0⟩]⟩ "A" 9) :=
  c2_sign_count_discipline "s" [("s", "CH"), ("s_username", "alice")]
    ⟨[⟨"u1", "alice", 0⟩], [⟨"A", "u1", "K", 5, 0⟩]⟩ "CH" "alice"
    ⟨"u1", "alice", 0⟩ ⟨"A", "u1", "K", 5, 0⟩
    ⟨"alice", ⟨none, "", true, "CH", "K", 5, "", ""⟩⟩
    ⟨"alice", ⟨none, "", true, "CH", "K", 9, "", ""⟩⟩
    (by decide) (by decide) (by decide) (by decide) (by decide) (by decide)
    (by decide) (by decide) (by decide) (by decide) (by decide) (by decide)

/-- Claim C5: whenever the verification gateway reports a failure — any
gateway, any failure — the finish call (registration or login) surfaces it as
a 400 error carrying the gateway's message and leaves the credential store
exactly as it was: no user row, no credential row, no sign-count update. -/
theorem c5_gateway_failure_no_writes
    (vr : RegVerify) (bR : RegisterFinishRequest) (sidR : String)
    (cacheR : Cache) (storeR : Store) (now : Nat) (chR uid e : String)
    (va : AuthVerify) (bL : LoginFinishRequest) (sidL : String)
    (cacheL : Cache) (storeL : Store) (chL uL e2 : String)
    (userL : UserRow) (cred_row : CredRow)
    (hchR : cacheR.get sidR = some chR) (hchR0 : chR ≠ "")
    (huid : cacheR.get (userIdKey sidR) = some uid) (huid0 : uid ≠ "")
    (hvr : vr bR.credential chR = .error e)
    (hchL : cacheL.get sidL = some chL) (hchL0 : chL ≠ "")
    (hunL : cacheL.get (usernameKey sidL) = some uL) (hunL0 : uL ≠ "")
    (huserL : storeL.findUserByUsername uL = some userL)
    (hcredL : storeL.getCredentialForLogin userL.id = some cred_row)
    (hva : va bL.credential chL cred_row.public_key cred_row.sign_count = .error e2) :
    ((register_finish vr bR sidR cacheR storeR now).1 =
        .error ⟨400, "Registration verification failed: " ++ e⟩ ∧
      (register_finish vr bR sidR cacheR storeR now).2.2 = storeR) ∧
    ((login_finish va bL sidL cacheL storeL).1 =
        .error ⟨400, "Authentication failed: " ++ e2⟩ ∧
      (login_finish va bL sidL cacheL storeL).2.2 = storeL) := by
  constructor
  · have huid2 : (cacheR.erase sidR).get (userIdKey sidR) = some uid := by
      rw [Cache.get_erase_ne _ _ _ fun hh => ne_userIdKey sidR hh.symm]
      exact huid
    constructor <;>
      simp [register_finish, Cache.pop, hchR, huid2, hchR0, huid0, hvr]
  · rw [login_finish_resolved va bL sidL cacheL storeL chL uL userL cred_row
      hchL hchL0 hunL hunL0 huserL hcredL]
    rw [hva]
    exact ⟨rfl, rfl⟩

/-- Witness for C5: concrete sessions in which the spec-contract gateway
rejects an invalid response; both finish calls return the 400 verification
error and leave their stores unchanged. -/
theorem c5_gateway_failure_no_writes_witness :
    ((register_finish verify_registration_response
          ⟨"alice", ⟨none, "", false, "CH", "", 0, "A", "K"⟩⟩ "s"
          [("s", "CH"), ("s_user_id", "u1"), ("s_username", "alice")]
          ⟨[], []⟩ 7).1 =
        .error ⟨400, "Registration verification failed: InvalidSignature"⟩ ∧
      (register_finish verify_registration_response
          ⟨"alice", ⟨none, "", false, "CH", "", 0, "A", "K"⟩⟩ "s"
          [("s", "CH"), ("s_user_id", "u1"), ("s_username", "alice")]
          ⟨[], []⟩ 7).2.2 = ⟨[], []⟩) ∧
    ((login_finish verify_authentication_response
          ⟨"alice", ⟨none, "", false, "CH", "K", 9, "", ""⟩⟩ "t"
          [("t", "CH2"), ("t_username", "alice")]
          ⟨[⟨"u1", "alice", 0⟩], [⟨"A", "u1", "K", 5, 0⟩]⟩).1 =
        .error ⟨400, "Authentication failed: InvalidSignature"⟩ ∧
      (login_finish verify_authentication_response
          ⟨"alice", ⟨none, "", false, "CH", "K", 9, "", ""⟩⟩ "t"
          [("t", "CH2"), ("t_username", "alice")]
          ⟨[⟨"u1", "alice", 0⟩], [⟨"A", "u1", "K", 5, 0⟩]⟩).2.2 =
        ⟨[⟨"u1", "alice", 0⟩], [⟨"A", "u1", "K", 5, 0⟩]⟩) :=
  c5_gateway_failure_no_writes verify_registration_response
    ⟨"alice", ⟨none, "", false, "CH", "", 0, "A", "K"⟩⟩ "s"
    [("s", "CH"), ("s_user_id", "u1"), ("s_username", "alice")] ⟨[], []⟩ 7
    "CH" "u1" "InvalidSignature"
    verify_authentication_response
    ⟨"alice", ⟨none, "", false, "CH", "K", 9, "", ""⟩⟩ "t"
    [("t", "CH2"), ("t_username", "alice")]
    ⟨[⟨"u1", "alice", 0⟩], [⟨"A", "u1", "K", 5, 0⟩]⟩ "CH2" "alice"
    "InvalidSignature" ⟨"u1", "alice", 0⟩ ⟨"A", "u1", "K", 5, 0⟩
    (by decide) (by decide) (by decide) (by decide) rfl
    (by decide) (by decide) (by decide) (by decide) (by decide)
    (by decide) rfl

/-- Claim C3 counterexample: user `u1` owns credentials "A" (key K1) and "B"
(key K2), in that insertion order.  A login response that identifies
credential "B" by its rawId and is validly signed by K2 does not get verified
against row "B": the code selects the first row by user id — "A", with key K1
— so the call fails, and the store is untouched.  The row selected is not the
row whose credential id matches the response's rawId. -/
theorem c3_counterexample :
    (Store.getCredentialForLogin
        ⟨[⟨"u1", "alice", 0⟩], [⟨"A", "u1", "K1", 0, 0⟩, ⟨"B", "u1", "K2", 0, 0⟩]⟩ "u1" =
      some ⟨"A", "u1", "K1", 0, 0⟩) ∧
    (("A" : String) ≠ "B") ∧
    ((⟨"B", "u1", "K2", 0, 0⟩ : CredRow) ∈
      ([⟨"A", "u1", "K1", 0, 0⟩, ⟨"B", "u1", "K2", 0, 0⟩] : List CredRow)) ∧
    ((login_finish verify_authentication_response
        ⟨"alice", ⟨some "B", "B", true, "CH", "K2", 1, "", ""⟩⟩ "s"
        [("s", "CH"), ("s_username", "alice")]
        ⟨[⟨"u1", "alice", 0⟩], [⟨"A", "u1", "K1", 0, 0⟩, ⟨"B", "u1", "K2", 0, 0⟩]⟩).1 =
      .error ⟨400, "Authentication failed: InvalidSignature"⟩) ∧
    ((login_finish verify_authentication_response
        ⟨"alice", ⟨some "B", "B", true, "CH", "K2", 1, "", ""⟩⟩ "s"
        [("s", "CH"), ("s_username", "alice")]
        ⟨[⟨"u1", "alice", 0⟩], [⟨"A", "u1", "K1", 0, 0⟩, ⟨"B", "u1", "K2", 0, 0⟩]⟩).2.2 =
      ⟨[⟨"u1", "alice", 0⟩], [⟨"A", "u1", "K1", 0, 0⟩, ⟨"B", "u1", "K2", 0, 0⟩]⟩) :=
  ⟨by decide, by decide, by decide, rfl, rfl⟩

/-- `login_finish` is a congruence in the gateway view of the response: if two
(gateway, body) pairs agree on the body username and on what the gateway
answers for the body's credential, the outcomes agree.  In particular the
rawId/id fields only feed the dead `padded` computation. -/
theorem login_finish_congr (v1 v2 : AuthVerify) (b1 b2 : LoginFinishRequest)
    (sid : String) (cache : Cache) (store : Store)
    (hu : b1.username = b2.username)
    (hv : ∀ ch pk sc, v1 b1.credential ch pk sc = v2 b2.credential ch pk sc) :
    login_finish v1 b1 sid cache store = login_finish v2 b2 sid cache store := by
  simp only [login_finish, Cache.pop, hu, hv]

/-- Claim C3 amended: at login finish the credential row used for verification
and for the sign-count update is selected by user id alone — the first stored
credential row of the resolved user — and the outcome is independent of the
rawId/id fields of the signed response (they feed only a dead padding
computation). -/
theorem c3_lookup_by_user_id_only (sid : String) (cache : Cache) (store : Store)
    (ch u : String) (user : UserRow) (cred_row : CredRow) (b : LoginFinishRequest)
    (hch : cache.get sid = some ch) (hch0 : ch ≠ "")
    (hun : cache.get (usernameKey sid) = some u) (hun0 : u ≠ "")
    (huser : store.findUserByUsername u = some user)
    (hcred : store.getCredentialForLogin user.id = some cred_row) :
    (∀ (sid2 : String) (cache2 : Cache) (store2 : Store) (bu : String)
        (r1 r2 : Option String) (i1 i2 : String) (vl : Bool) (sc upk : String)
        (rc : Nat) (nci npk : String),
      login_finish verify_authentication_response
          ⟨bu, ⟨r1, i1, vl, sc, upk, rc, nci, npk⟩⟩ sid2 cache2 store2 =
        login_finish verify_authentication_response
          ⟨bu, ⟨r2, i2, vl, sc, upk, rc, nci, npk⟩⟩ sid2 cache2 store2) ∧
    ((login_finish verify_authentication_response b sid cache store).2.2 = store ∨
      (login_finish verify_authentication_response b sid cache store).2.2 =
        store.updateSignCount cred_row.credential_id
          b.credential.reportedSignCount) := by
  constructor
  · intro sid2 cache2 store2 bu r1 r2 i1 i2 vl sc upk rc nci npk
    exact login_finish_congr _ _ _ _ sid2 cache2 store2 rfl (fun _ _ _ => rfl)
  · rw [login_finish_resolved verify_authentication_response b sid cache store
      ch u user cred_row hch hch0 hun hun0 huser hcred]
    cases hv2 : verify_authentication_response b.credential ch
        cred_row.public_key cred_row.sign_count with
    | error e => left; rfl
    | ok d =>
      right
      simp only [verify_authentication_response] at hv2
      split_ifs at hv2
      all_goals cases hv2
      rfl

/-- Witness for the amended C3: with the two-credential store of the
counterexample, the store either stays unchanged or only row "A" — the first
row for the user — gets its sign count updated, whatever rawId the response
carries. -/
theorem c3_lookup_by_user_id_only_witness :
    (∀ (sid2 : String) (cache2 : Cache) (store2 : Store) (bu : String)
        (r1 r2 : Option String) (i1 i2 : String) (vl : Bool) (sc upk : String)
        (rc : Nat) (nci npk : String),
      login_finish verify_authentication_response
          ⟨bu, ⟨r1, i1, vl, sc, upk, rc, nci, npk⟩⟩ sid2 cache2 store2 =
        login_finish verify_authentication_response
          ⟨bu, ⟨r2, i2, vl, sc, upk, rc, nci, npk⟩⟩ sid2 cache2 store2) ∧
    ((login_finish verify_authentication_response
        ⟨"alice", ⟨some "B", "B", true, "CH", "K2", 1, "", ""⟩⟩ "s"
        [("s", "CH"), ("s_username", "alice")]
        ⟨[⟨"u1", "alice", 0⟩], [⟨"A", "u1", "K1", 0, 0⟩, ⟨"B", "u1", "K2", 0, 0⟩]⟩).2.2 =
        ⟨[⟨"u1", "alice", 0⟩], [⟨"A", "u1", "K1", 0, 0⟩, ⟨"B", "u1", "K2", 0, 0⟩]⟩ ∨
      (login_finish verify_authentication_response
        ⟨"alice", ⟨some "B", "B", true, "CH", "K2", 1, "", ""⟩⟩ "s"
        [("s", "CH"), ("s_username", "alice")]
        ⟨[⟨"u1", "alice", 0⟩], [⟨"A", "u1", "K1", 0, 0⟩, ⟨"B", "u1", "K2", 0, 0⟩]⟩).2.2 =
        Store.updateSignCount
          ⟨[⟨"u1", "alice", 0⟩], [⟨"A", "u1", "K1", 0, 0⟩, ⟨"B", "u1", "K2", 0, 0⟩]⟩
          "A" 1) :=
  c3_lookup_by_user_id_only "s" [("s", "CH"), ("s_username", "alice")]
    ⟨[⟨"u1", "alice", 0⟩], [⟨"A", "u1", "K1", 0, 0⟩, ⟨"B", "u1", "K2", 0, 0⟩]⟩
    "CH" "alice" ⟨"u1", "alice", 0⟩ ⟨"A", "u1", "K1", 0, 0⟩
    ⟨"alice", ⟨some "B", "B", true, "CH", "K2", 1, "", ""⟩⟩
    (by decide) (by decide) (by decide) (by decide) (by decide) (by decide)

/-- Claim C7 counterexample: a cache state holding a challenge and a pending
user id for session "s" but no pending username.  `register_finish` does not
fail with the no-pending-registration BadRequest: it proceeds to verification,
as witnessed by the gateway failure text reaching the client. -/
theorem c7_counterexample :
    (Cache.get [("s", "CH"), ("s_user_id", "u1")] "s" = some "CH") ∧
    (Cache.get [("s", "CH"), ("s_user_id", "u1")] (userIdKey "s") = some "u1") ∧
    (Cache.get [("s", "CH"), ("s_user_id", "u1")] (usernameKey "s") = none) ∧
    ((register_finish (fun _ _ => .error "X")
        ⟨"alice", ⟨none, "", true, "CH", "", 0, "", ""⟩⟩ "s"
        [("s", "CH"), ("s_user_id", "u1")] ⟨[], []⟩ 0).1 =
      .error ⟨400, "Registration verification failed: X"⟩) ∧
    ((register_finish (fun _ _ => .error "X")
        ⟨"alice", ⟨none, "", true, "CH", "", 0, "", ""⟩⟩ "s"
        [("s", "CH"), ("s_user_id", "u1")] ⟨[], []⟩ 0).1 ≠
      .error ⟨400, "No pending registration. Start over."⟩) := by
  refine ⟨by decide, by decide, by decide, rfl, ?_⟩
  intro hcontra
  have h4 : (register_finish (fun _ _ => .error "X")
      ⟨"alice", ⟨none, "", true, "CH", "", 0, "", ""⟩⟩ "s"
      [("s", "CH"), ("s_user_id", "u1")] ⟨[], []⟩ 0).1 =
      (.error ⟨400, "Registration verification failed: X"⟩ :
        Except HErr FinishOk) := rfl
  rw [h4] at hcontra
  injection hcontra with h5
  exact absurd h5 (by decide)

/-- Claim C7 amended: `register_finish` pops all three session slots, but its
guard checks only the challenge and the pending user id: the 400
no-pending-registration error fires exactly when one of those two is absent
or empty.  A missing pending username with challenge and user id present does
not trigger it — the call proceeds to the verification gateway, and then
returns the 400 verification-failure error, or, when verification succeeds, a
500 NOT-NULL-constraint failure at the user INSERT. -/
theorem c7_guard_ignores_username_slot (v : RegVerify) (b : RegisterFinishRequest)
    (sid : String) (cache : Cache) (store : Store) (now : Nat) :
    ((register_finish v b sid cache store now).2.1.get sid = none ∧
      (register_finish v b sid cache store now).2.1.get (userIdKey sid) = none ∧
      (register_finish v b sid cache store now).2.1.get (usernameKey sid) = none) ∧
    ((cache.get sid = none ∨ cache.get sid = some "" ∨
        cache.get (userIdKey sid) = none ∨ cache.get (userIdKey sid) = some "") →
      (register_finish v b sid cache store now).1 =
          .error ⟨400, "No pending registration. Start over."⟩ ∧
        (register_finish v b sid cache store now).2.2 = store) ∧
    (∀ ch uid, cache.get sid = some ch → ch ≠ "" →
      cache.get (userIdKey sid) = some uid → uid ≠ "" →
      cache.get (usernameKey sid) = none →
      (∀ e, v b.credential ch = .error e →
        (register_finish v b sid cache store now).1 =
          .error ⟨400, "Registration verification failed: " ++ e⟩) ∧
      (∀ d, v b.credential ch = .ok d →
        (register_finish v b sid cache store now).1 =
          .error ⟨500, "NOT NULL constraint failed: users.username"⟩)) := by
  refine ⟨⟨register_finish_cache_get_none v b sid cache store now, ?_, ?_⟩, ?_, ?_⟩
  · rw [register_finish_cache]
    rw [Cache.get_erase_ne _ _ _ (userIdKey_ne_usernameKey sid)]
    exact Cache.get_erase_self _ _
  · rw [register_finish_cache]
    exact Cache.get_erase_self _ _
  · rintro (h | h | h | h)
    · exact register_finish_no_challenge v b sid cache store now h
    · cases hx : (cache.erase sid).get (userIdKey sid) <;>
        constructor <;> simp [register_finish, Cache.pop, h, hx]
    · have hx : (cache.erase sid).get (userIdKey sid) = none := by
        rw [Cache.get_erase_ne _ _ _ fun hh => ne_userIdKey sid hh.symm]
        exact h
      cases hc : cache.get sid <;>
        constructor <;> simp [register_finish, Cache.pop, hc, hx]
    · have hx : (cache.erase sid).get (userIdKey sid) = some "" := by
        rw [Cache.get_erase_ne _ _ _ fun hh => ne_userIdKey sid hh.symm]
        exact h
      cases hc : cache.get sid <;>
        constructor <;> simp [register_finish, Cache.pop, hc, hx]
  · intro ch uid hch hch0 huid huid0 hun
    have huid2 : (cache.erase sid).get (userIdKey sid) = some uid := by
      rw [Cache.get_erase_ne _ _ _ fun hh => ne_userIdKey sid hh.symm]
      exact huid
    have hun2 : ((cache.erase sid).erase (userIdKey sid)).get (usernameKey sid) = none := by
      rw [Cache.get_erase_ne _ _ _ fun hh => userIdKey_ne_usernameKey sid hh.symm,
        Cache.get_erase_ne _ _ _ fun hh => ne_usernameKey sid hh.symm]
      exact hun
    constructor
    · intro e hv
      simp [register_finish, Cache.pop, hch, huid2, hch0, huid0, hv]
    · intro d hv
      simp [register_finish, Cache.pop, hch, huid2, hch0, huid0, hv, hun2]

/-- Witness for the amended C7, exercising all three regimes: an empty cache
gives the no-pending error; a cache missing only the username slot proceeds
to verification and surfaces the gateway failure; with a succeeding gateway
the same state dies at the NOT NULL constraint with a 500. -/
theorem c7_guard_ignores_username_slot_witness :
    ((register_finish (fun _ _ => .error "X")
        ⟨"alice", ⟨none, "", true, "CH", "", 0, "", ""⟩⟩ "s" [] ⟨[], []⟩ 0).1 =
      .error ⟨400, "No pending registration. Start over."⟩) ∧
    ((register_finish (fun _ _ => .error "X")
        ⟨"alice", ⟨none, "", true, "CH", "", 0, "", ""⟩⟩ "s"
        [("s", "CH"), ("s_user_id", "u1")] ⟨[], []⟩ 0).1 =
      .error ⟨400, "Registration verification failed: X"⟩) ∧
    ((register_finish (fun _ _ => .ok ⟨"A", "K", 0⟩)
        ⟨"alice", ⟨none, "", true, "CH", "", 0, "", ""⟩⟩ "s"
        [("s", "CH"), ("s_user_id", "u1")] ⟨[], []⟩ 0).1 =
      .error ⟨500, "NOT NULL constraint failed: users.username"⟩) :=
  ⟨((c7_guard_ignores_username_slot (fun _ _ => .error "X")
      ⟨"alice", ⟨none, "", true, "CH", "", 0, "", ""⟩⟩ "s" [] ⟨[], []⟩ 0).2.1
      (Or.inl rfl)).1,
   ((c7_guard_ignores_username_slot (fun _ _ => .error "X")
      ⟨"alice", ⟨none, "", true, "CH", "", 0, "", ""⟩⟩ "s"
      [("s", "CH"), ("s_user_id", "u1")] ⟨[], []⟩ 0).2.2 "CH" "u1"
      (by decide) (by decide) (by decide) (by decide) (by decide)).1 "X" rfl,
   ((c7_guard_ignores_username_slot (fun _ _ => .ok ⟨"A", "K", 0⟩)
      ⟨"alice", ⟨none, "", true, "CH", "", 0, "", ""⟩⟩ "s"
      [("s", "CH"), ("s_user_id", "u1")] ⟨[], []⟩ 0).2.2 "CH" "u1"
      (by decide) (by decide) (by decide) (by decide) (by decide)).2 ⟨"A", "K", 0⟩ rfl⟩

/-- Claim C9: the challenge cache keys carry no ceremony-type discriminator.
After a successful `register_start` on a session (nonempty normalized
username, username free, nonempty challenge) with no intervening pop, a
`login_finish` on the same session gets past the no-pending-login guard by
popping the registration-issued challenge (which is what sits under the bare
session-id key), fails only later with the 404 unknown-user error, and leaves
the registration's pending user-id entry behind in the cache. -/
theorem c9_no_ceremony_discriminator (bs : RegisterStartRequest) (sid : String)
    (cache : Cache) (store : Store) (fresh ch : String)
    (v : AuthVerify) (bl : LoginFinishRequest) (cache1 : Cache)
    (hne : normalize bs.username ≠ "")
    (hfree : store.findUserByUsername (normalize bs.username) = none)
    (hch0 : ch ≠ "")
    (hcache1 : (register_start bs sid cache store fresh ch).2 = cache1) :
    cache1.get sid = some ch ∧
    (login_finish v bl sid cache1 store).1 = .error ⟨404, "User not found."⟩ ∧
    (login_finish v bl sid cache1 store).1 ≠
      .error ⟨400, "No pending login. Start over."⟩ ∧
    (login_finish v bl sid cache1 store).2.1.get sid = none ∧
    (login_finish v bl sid cache1 store).2.1.get (userIdKey sid) = some fresh := by
  have hc1 : cache1 =
      ((cache.put sid ch).put (userIdKey sid) fresh).put (usernameKey sid)
        (normalize bs.username) := by
    rw [← hcache1]
    simp [register_start, hne, hfree]
  have hgetch : cache1.get sid = some ch := by
    rw [hc1, Cache.get_put_ne _ _ _ _ (ne_usernameKey sid),
      Cache.get_put_ne _ _ _ _ (ne_userIdKey sid)]
    exact Cache.get_put_self cache sid ch
  have hgetun : cache1.get (usernameKey sid) = some (normalize bs.username) :=
    hc1 ▸ Cache.get_put_self _ _ _
  have hgetuid : cache1.get (userIdKey sid) = some fresh := by
    rw [hc1, Cache.get_put_ne _ _ _ _ (userIdKey_ne_usernameKey sid)]
    exact Cache.get_put_self _ _ _
  have hun2 : (cache1.erase sid).get (usernameKey sid) =
      some (normalize bs.username) := by
    rw [Cache.get_erase_ne _ _ _ fun hh => ne_usernameKey sid hh.symm]
    exact hgetun
  have hmain : (login_finish v bl sid cache1 store).1 =
      .error ⟨404, "User not found."⟩ := by
    simp [login_finish, Cache.pop, hgetch, hun2, hch0, hne, hfree]
  refine ⟨hgetch, hmain, ?_, login_finish_cache_get_none v bl sid cache1 store, ?_⟩
  · intro hcontra
    rw [hmain] at hcontra
    injection hcontra with h5
    exact absurd h5 (by decide)
  · rw [login_finish_cache,
      Cache.get_erase_ne _ _ _ (userIdKey_ne_usernameKey sid),
      Cache.get_erase_ne _ _ _ fun hh => ne_userIdKey sid hh.symm]
    exact hgetuid

/-- Witness for C9: register-start for "alice" on session "s", then a login
finish on "s": the 404 (not the no-pending-login 400) is returned and the
`s_user_id` entry survives. -/
theorem c9_no_ceremony_discriminator_witness :
    (Cache.get (register_start ⟨"alice"⟩ "s" [] ⟨[], []⟩ "u1" "CH").2 "s" = some "CH") ∧
    (login_finish verify_authentication_response
        ⟨"alice", ⟨none, "", true, "CH", "K", 1, "", ""⟩⟩ "s"
        (register_start ⟨"alice"⟩ "s" [] ⟨[], []⟩ "u1" "CH").2 ⟨[], []⟩).1 =
      .error ⟨404, "User not found."⟩ ∧
    (login_finish verify_authentication_response
        ⟨"alice", ⟨none, "", true, "CH", "K", 1, "", ""⟩⟩ "s"
        (register_start ⟨"alice"⟩ "s" [] ⟨[], []⟩ "u1" "CH").2 ⟨[], []⟩).1 ≠
      .error ⟨400, "No pending login. Start over."⟩ ∧
    (login_finish verify_authentication_response
        ⟨"alice", ⟨none, "", true, "CH", "K", 1, "", ""⟩⟩ "s"
        (register_start ⟨"alice"⟩ "s" [] ⟨[], []⟩ "u1" "CH").2 ⟨[], []⟩).2.1.get "s" =
      none ∧
    (login_finish verify_authentication_response
        ⟨"alice", ⟨none, "", true, "CH", "K", 1, "", ""⟩⟩ "s"
        (register_start ⟨"alice"⟩ "s" [] ⟨[], []⟩ "u1" "CH").2 ⟨[], []⟩).2.1.get
      (userIdKey "s") = some "u1" :=
  c9_no_ceremony_discriminator ⟨"alice"⟩ "s" [] ⟨[], []⟩ "u1" "CH"
    verify_authentication_response
    ⟨"alice", ⟨none, "", true, "CH", "K", 1, "", ""⟩⟩
    (register_start ⟨"alice"⟩ "s" [] ⟨[], []⟩ "u1" "CH").2
    (by decide) (by decide) (by decide) rfl

/-- Inversion: a successful `register_finish` happened on a session with all
three slots populated, returned the pending username, and appended the user
row (pending user id, pending username) plus one credential row owned by it. -/
theorem register_finish_ok_inv (v : RegVerify) (b : RegisterFinishRequest)
    (sid : String) (cache : Cache) (store : Store) (now : Nat)
    (p : FinishOk) (c2 : Cache) (s2 : Store)
    (h : register_finish v b sid cache store now = (.ok p, c2, s2)) :
    ∃ uid un cr, (cache.erase sid).get (userIdKey sid) = some uid ∧
      ((cache.erase sid).erase (userIdKey sid)).get (usernameKey sid) = some un ∧
      p = ⟨"ok", un⟩ ∧
      s2 = ⟨store.users ++ [⟨uid, un, now⟩], store.creds ++ [cr]⟩ ∧
      cr.user_id = uid := by
  simp only [register_finish, Cache.pop] at h
  split at h
  · split at h
    · simp at h
    · split at h
      · simp at h
      · split at h
        · simp at h
        · split at h
          · simp at h
          · rename_i xa xb challenge user_id heqch hequid hguard xc verification
              heqver xd username hequn xe st2 heqins
            simp only [Prod.mk.injEq, Except.ok.injEq] at h
            obtain ⟨hp, hc2, hs2⟩ := h
            refine ⟨user_id, username,
              ⟨verification.credential_id, user_id,
                verification.credential_public_key, verification.sign_count, now⟩,
              hequid, hequn, hp.symm, ?_, rfl⟩
            rw [← hs2]
            exact insertUserAndCredential_ok_shape _ _ _ _ heqins
  · simp at h

/-- Claim C10: `register_finish` never reads the username field of its
request body.  First conjunct: two finish requests that differ only in the
body's username field produce identical outcomes (result, cache and store),
for any gateway and any state.  Second conjunct: after a successful
`register_start`, any successful finish on that session returns — and
persists in the new user row — the normalized pending username stored at
start, with the pending user id as its id, regardless of the finish body. -/
theorem c10_finish_ignores_body_username :
    (∀ (v : RegVerify) (sid : String) (cache : Cache) (store : Store) (now : Nat)
        (u1 u2 : String) (cred : ClientCredential),
      register_finish v ⟨u1, cred⟩ sid cache store now =
        register_finish v ⟨u2, cred⟩ sid cache store now) ∧
    (∀ (bs : RegisterStartRequest) (sid : String) (cache : Cache) (store : Store)
        (fresh ch : String) (v : RegVerify) (bf : RegisterFinishRequest)
        (store2 : Store) (now : Nat) (cache1 : Cache) (p : FinishOk),
      normalize bs.username ≠ "" →
      store.findUserByUsername (normalize bs.username) = none →
      (register_start bs sid cache store fresh ch).2 = cache1 →
      (register_finish v bf sid cache1 store2 now).1 = .ok p →
      p.username = normalize bs.username ∧
      ∃ u cr, (register_finish v bf sid cache1 store2 now).2.2 =
          ⟨store2.users ++ [u], store2.creds ++ [cr]⟩ ∧
        u.username = normalize bs.username ∧ u.id = fresh ∧ cr.user_id = fresh) := by
  constructor
  · intro v sid cache store now u1 u2 cred
    rfl
  · intro bs sid cache store fresh ch v bf store2 now cache1 p hne hfree hcache1 hp
    have hc1 : cache1 =
        ((cache.put sid ch).put (userIdKey sid) fresh).put (usernameKey sid)
          (normalize bs.username) := by
      rw [← hcache1]
      simp [register_start, hne, hfree]
    have hgetch : cache1.get sid = some ch := by
      rw [hc1, Cache.get_put_ne _ _ _ _ (ne_usernameKey sid),
        Cache.get_put_ne _ _ _ _ (ne_userIdKey sid)]
      exact Cache.get_put_self cache sid ch
    have hgetuid : (cache1.erase sid).get (userIdKey sid) = some fresh := by
      rw [Cache.get_erase_ne _ _ _ fun hh => ne_userIdKey sid hh.symm, hc1,
        Cache.get_put_ne _ _ _ _ (userIdKey_ne_usernameKey sid)]
      exact Cache.get_put_self _ _ _
    have hgetun : ((cache1.erase sid).erase (userIdKey sid)).get (usernameKey sid) =
        some (normalize bs.username) := by
      rw [Cache.get_erase_ne _ _ _ fun hh => userIdKey_ne_usernameKey sid hh.symm,
        Cache.get_erase_ne _ _ _ fun hh => ne_usernameKey sid hh.symm, hc1]
      exact Cache.get_put_self _ _ _
    have hfull : register_finish v bf sid cache1 store2 now =
        (.ok p, (register_finish v bf sid cache1 store2 now).2.1,
          (register_finish v bf sid cache1 store2 now).2.2) := by
      rw [← hp]
    obtain ⟨uid, un, cr, huid2, hun2, hp2, hs2, hcr⟩ :=
      register_finish_ok_inv v bf sid cache1 store2 now p _ _ hfull
    rw [hgetuid] at huid2
    rw [hgetun] at hun2
    injection huid2 with huid3
    injection hun2 with hun3
    subst huid3
    subst hun3
    constructor
    · rw [hp2]
    · exact ⟨⟨fresh, normalize bs.username, now⟩, cr, hs2, rfl, rfl, hcr⟩

/-- Witness for C10: a concrete successful registration for username
"Alice " (normalizing to "alice"); the finish body's username field is
"mallory", yet the persisted and returned username is "alice" with the
pending user id "u1". -/
theorem c10_finish_ignores_body_username_witness :
    (normalize "Alice " ≠ "") ∧
    (Store.findUserByUsername ⟨[], []⟩ (normalize "Alice ") = none) ∧
    ((register_finish verify_registration_response
        ⟨"mallory", ⟨none, "", true, "CH", "", 3, "A", "K"⟩⟩ "s"
        (register_start ⟨"Alice "⟩ "s" [] ⟨[], []⟩ "u1" "CH").2 ⟨[], []⟩ 7).1 =
      .ok ⟨"ok", "alice"⟩) ∧
    ((⟨"ok", "alice"⟩ : FinishOk).username = normalize "Alice " ∧
      ∃ u cr, (register_finish verify_registration_response
          ⟨"mallory", ⟨none, "", true, "CH", "", 3, "A", "K"⟩⟩ "s"
          (register_start ⟨"Alice "⟩ "s" [] ⟨[], []⟩ "u1" "CH").2 ⟨[], []⟩ 7).2.2 =
          ⟨[] ++ [u], [] ++ [cr]⟩ ∧
        u.username = normalize "Alice " ∧ u.id = "u1" ∧ cr.user_id = "u1") :=
  ⟨by decide, by decide, rfl,
    c10_finish_ignores_body_username.2 ⟨"Alice "⟩ "s" [] ⟨[], []⟩ "u1" "CH"
      verify_registration_response
      ⟨"mallory", ⟨none, "", true, "CH", "", 3, "A", "K"⟩⟩ ⟨[], []⟩ 7
      (register_start ⟨"Alice "⟩ "s" [] ⟨[], []⟩ "u1" "CH").2 ⟨"ok", "alice"⟩
      (by decide) (by decide) rfl rfl⟩

end TouchId
